import Mathlib

/-!
Verification of the Fake-Job-Detector web application (`app.py`) against its
specification.  The Python source is shallowly embedded: text is `List Char`,
bytes are `Nat` values below 256, the in-process explanation cache is an
association list, and the two external HTTP collaborators (the OCR service and
the language-model completion API) are oracle parameters.
-/

/-- Python's whitespace test for `str.strip` (ASCII range): space, tab,
newline, carriage return, vertical tab, form feed. -/
def pyIsSpace (c : Char) : Bool :=
  c.toNat = 32 || c.toNat = 9 || c.toNat = 10 || c.toNat = 13 ||
  c.toNat = 11 || c.toNat = 12

/-- Python `str.strip()`: drop whitespace from both ends. -/
def pyStrip (s : List Char) : List Char :=
  ((s.dropWhile pyIsSpace).reverse.dropWhile pyIsSpace).reverse

/-- Python `str.lower()` on one character (ASCII uppercase is shifted by 32,
everything else is unchanged). -/
def pyLowerChar (c : Char) : Char :=
  if 65 ≤ c.toNat && c.toNat ≤ 90 then Char.ofNat (c.toNat + 32) else c

/-- Python `str.lower()`. -/
def pyLower (s : List Char) : List Char := s.map pyLowerChar

/-- Python's substring test `pat in hay` for strings: `pat` occurs
contiguously in `hay`. -/
def hasSub (pat : List Char) : List Char → Bool
  | [] => pat.isEmpty
  | c :: rest => pat.isPrefixOf (c :: rest) || hasSub pat rest

/-- Python `s.replace(pat, "")` for a pattern, with explicit fuel so the
kernel can evaluate it: remove the leftmost occurrence, then continue
scanning after it (non-overlapping, left to right). -/
def removeOccAux (pat : List Char) : Nat → List Char → List Char
  | _, [] => []
  | 0, s => s
  | fuel + 1, c :: rest =>
    if pat ≠ [] ∧ pat.isPrefixOf (c :: rest) then
      removeOccAux pat fuel ((c :: rest).drop pat.length)
    else
      c :: removeOccAux pat fuel rest

/-- Python `s.replace(pat, "")` for a pattern. -/
def removeOcc (pat : List Char) (s : List Char) : List Char :=
  removeOccAux pat s.length s

/-- UTF-8 encoding of one character, as Python `str.encode()` produces it. -/
def utf8Char (c : Char) : List Nat :=
  let n := c.toNat
  if n < 128 then [n]
  else if n < 2048 then [192 + n / 64, 128 + n % 64]
  else if n < 65536 then [224 + n / 4096, 128 + (n / 64) % 64, 128 + n % 64]
  else [240 + n / 262144, 128 + (n / 4096) % 64, 128 + (n / 64) % 64, 128 + n % 64]

/-- UTF-8 encoding of a string as a byte list. -/
def utf8Encode (s : List Char) : List Nat := (s.map utf8Char).flatten

/-! ### SHA-256 (the `hashlib.sha256(...).hexdigest()` used by `cache_key`) -/

/-- Truncate to a 32-bit word. -/
def w32 (x : Nat) : Nat := x % 4294967296

/-- 32-bit rotate right. -/
def rotr (n x : Nat) : Nat := (x >>> n) ||| w32 (x <<< (32 - n))

def sigma0 (x : Nat) : Nat := rotr 7 x ^^^ rotr 18 x ^^^ (x >>> 3)

def sigma1 (x : Nat) : Nat := rotr 17 x ^^^ rotr 19 x ^^^ (x >>> 10)

/-- The 64 SHA-256 round constants. -/
def sha256K : List Nat :=
  [1116352408, 1899447441, 3049323471, 3921009573, 961987163,
   1508970993, 2453635748, 2870763221, 3624381080, 310598401,
   607225278, 1426881987, 1925078388, 2162078206, 2614888103,
   3248222580, 3835390401, 4022224774, 264347078, 604807628,
   770255983, 1249150122, 1555081692, 1996064986, 2554220882,
   2821834349, 2952996808, 3210313671, 3336571891, 3584528711,
   113926993, 338241895, 666307205, 773529912, 1294757372,
   1396182291, 1695183700, 1986661051, 2177026350, 2456956037,
   2730485921, 2820302411, 3259730800, 3345764771, 3516065817,
   3600352804, 4094571909, 275423344, 430227734, 506948616,
   659060556, 883997877, 958139571, 1322822218, 1537002063,
   1747873779, 1955562222, 2024104815, 2227730452, 2361852424,
   2428436474, 2756734187, 3204031479, 3329325298]

/-- The SHA-256 initial hash state. -/
def sha256H0 : List Nat :=
  [1779033703, 3144134277, 1013904242, 2773480762,
   1359893119, 2600822924, 528734635, 1541459225]

/-- Big-endian bytes of `n`, `k` bytes wide. -/
def toBytesBE (k n : Nat) : List Nat :=
  (List.range k).map (fun i => (n >>> (8 * (k - 1 - i))) % 256)

/-- SHA-256 message padding: append `0x80`, zero bytes up to 56 mod 64, then
the 64-bit big-endian bit length. -/
def sha256Pad (msg : List Nat) : List Nat :=
  let zeros := (119 - (msg.length % 64)) % 64
  msg ++ [0x80] ++ List.replicate zeros 0 ++ toBytesBE 8 (8 * msg.length)

/-- Split a byte list into 64-byte chunks, with explicit fuel so the kernel
can evaluate it. -/
def chunks64Aux : Nat → List Nat → List (List Nat)
  | _, [] => []
  | 0, _ :: _ => []
  | fuel + 1, a :: rest => ((a :: rest).take 64) :: chunks64Aux fuel ((a :: rest).drop 64)

/-- Split a byte list into 64-byte chunks. -/
def chunks64 (l : List Nat) : List (List Nat) :=
  chunks64Aux l.length l

/-- The 16 big-endian words of one 64-byte block. -/
def blockWords (block : List Nat) : List Nat :=
  (List.range 16).map (fun i =>
    (block.getD (4 * i) 0) * 16777216 + (block.getD (4 * i + 1) 0) * 65536 +
    (block.getD (4 * i + 2) 0) * 256 + block.getD (4 * i + 3) 0)

/-- Extend 16 words to the 64-word message schedule. -/
def sha256Schedule (ws16 : List Nat) : List Nat :=
  (List.range 48).foldl
    (fun ws _ =>
      let n := ws.length
      ws ++ [w32 (ws.getD (n - 16) 0 + sigma0 (ws.getD (n - 15) 0) +
                  ws.getD (n - 7) 0 + sigma1 (ws.getD (n - 2) 0))])
    ws16

/-- One SHA-256 compression round on the 8-word working state. -/
def sha256Round (st : List Nat) (kw : Nat × Nat) : List Nat :=
  match st with
  | [a, b, c, d, e, f, g, h] =>
    let S1 := rotr 6 e ^^^ rotr 11 e ^^^ rotr 25 e
    let ch := (e &&& f) ^^^ ((e ^^^ 4294967295) &&& g)
    let temp1 := w32 (h + S1 + ch + kw.1 + kw.2)
    let S0 := rotr 2 a ^^^ rotr 13 a ^^^ rotr 22 a
    let maj := (a &&& b) ^^^ (a &&& c) ^^^ (b &&& c)
    let temp2 := w32 (S0 + maj)
    [w32 (temp1 + temp2), a, b, c, w32 (d + temp1), e, f, g]
  | _ => st

/-- Process one 64-byte block into the hash state. -/
def sha256Block (st : List Nat) (block : List Nat) : List Nat :=
  let ws := sha256Schedule (blockWords block)
  let st2 := (sha256K.zip ws).foldl sha256Round st
  List.zipWith (fun x y => w32 (x + y)) st st2

/-- The eight 32-bit words of the SHA-256 digest of a byte list. -/
def sha256Words (msg : List Nat) : List Nat :=
  (chunks64 (sha256Pad msg)).foldl sha256Block sha256H0

/-- One lowercase hexadecimal digit. -/
def hexDigit (n : Nat) : Char :=
  match n with
  | 0 => '0' | 1 => '1' | 2 => '2' | 3 => '3' | 4 => '4' | 5 => '5'
  | 6 => '6' | 7 => '7' | 8 => '8' | 9 => '9' | 10 => 'a' | 11 => 'b'
  | 12 => 'c' | 13 => 'd' | 14 => 'e' | 15 => 'f' | _ => '0'

/-- Eight hex digits of one 32-bit word. -/
def toHex8 (w : Nat) : List Char :=
  (List.range 8).map (fun i => hexDigit ((w >>> (4 * (7 - i))) % 16))

/-- `hashlib.sha256(msg).hexdigest()`: the 64-character lowercase hex digest. -/
def sha256Hex (msg : List Nat) : List Char :=
  ((sha256Words msg).map toHex8).flatten

/-! ### The application (`app.py`) -/

/-- `cache_key` (app.py lines 42-43):
`hashlib.sha256(text.strip().lower().encode()).hexdigest()`. -/
def cache_key (text : List Char) : List Char :=
  sha256Hex (utf8Encode (pyLower (pyStrip text)))

/-- `suspicious_phrases` (app.py lines 46-51). -/
def suspicious_phrases : List (List Char) :=
  ["registration fee".data, "application fee".data, "training fee".data,
   "deposit".data, "pay".data, "apply immediately".data, "limited seats".data,
   "urgent hiring".data, "no interview".data, "guaranteed placement".data,
   "work from home".data, "whatsapp".data, "telegram".data]

/-- `risk_tips` (app.py lines 53-59), as an ordered association list. -/
def risk_tips : List (List Char × List Char) :=
  [("registration fee".data, "Genuine companies do not ask for fees.".data),
   ("limited seats".data, "Fake jobs create urgency.".data),
   ("whatsapp".data, "Hiring via WhatsApp is suspicious.".data),
   ("telegram".data, "Telegram recruitment is risky.".data),
   ("no interview".data, "Skipping interviews is a red flag.".data)]

deriving instance DecidableEq for Except

/-- A JSON result element of the OCR response: the `ParsedText` key may be
absent. -/
structure OcrResult where
  ParsedText : Option (List Char)
deriving DecidableEq

/-- The OCR service's JSON response: the `ParsedResults` key may be absent. -/
structure OcrResponse where
  ParsedResults : Option (List OcrResult)
deriving DecidableEq

/-- `extract_text_from_image` (app.py lines 33-37), after the HTTP response
has been received: if `ParsedResults` is present and non-empty, return the
first result's `ParsedText` lowercased — a missing `ParsedText` key raises a
`KeyError` which propagates (modelled as `Except.error`); otherwise return the
empty string. -/
def parse_ocr (data : OcrResponse) : Except (List Char) (List Char) :=
  match data.ParsedResults with
  | some (r :: _) =>
    match r.ParsedText with
    | some t => .ok (pyLower t)
    | none => .error "KeyError: ParsedText".data
  | _ => .ok []

/-- `extract_text_from_image` with the OCR HTTP service as an oracle from
image bytes to its JSON response. -/
def extract_text_from_image (ocr : List Nat → OcrResponse) (image_bytes : List Nat) :
    Except (List Char) (List Char) :=
  parse_ocr (ocr image_bytes)

/-- The chat-completion request `ai_explanation` sends (app.py lines 71-75):
`model="gpt-4o-mini"`, a single user-role message, `max_tokens=120`. -/
structure ChatRequest where
  model : List Char
  messages : List (List Char × List Char)
  max_tokens : Nat
deriving DecidableEq

/-- The f-string prompt of `ai_explanation` (app.py lines 62-70). -/
def ai_prompt (risk : List Char) (reasons : List (List Char)) : List Char :=
  "\nRisk Level: ".data ++ risk ++
  "\nSuspicious indicators: ".data ++
  (if reasons.isEmpty then "None".data else List.intercalate ", ".data reasons) ++
  "\n\nExplain simply:\n• Why this job is risky\n• What students should check\n• One safety tip\n".data

/-- The request value built by `ai_explanation` (app.py lines 71-75). -/
def ai_request (risk : List Char) (reasons : List (List Char)) : ChatRequest :=
  { model := "gpt-4o-mini".data,
    messages := [("user".data, ai_prompt risk reasons)],
    max_tokens := 120 }

/-- `ai_explanation` (app.py lines 61-76), with the language-model API as an
oracle from the request to the completion text; the result is
`content.replace("###", "").strip()`. -/
def ai_explanation (api : ChatRequest → List Char) (text risk : List Char)
    (reasons : List (List Char)) : List Char :=
  pyStrip (removeOcc "###".data (api (ai_request risk reasons)))

/-- The scoring loop (app.py lines 118-124): `score` and `reasons` accumulated
over `suspicious_phrases` in order. -/
def score_loop (text : List Char) : Nat × List (List Char) :=
  suspicious_phrases.foldl
    (fun acc phrase =>
      if hasSub phrase text then (acc.1 + 1, acc.2 ++ [phrase]) else acc)
    (0, [])

/-- The score-to-tier mapping (app.py lines 126-131), returning
`(risk, meter, trust, cls)`. -/
def risk_levels (score : Nat) : List Char × Nat × Nat × List Char :=
  if score = 0 then ("LOW RISK".data, 20, 85, "low".data)
  else if score ≤ 2 then ("MEDIUM RISK".data, 60, 55, "medium".data)
  else ("HIGH RISK".data, 90, 20, "high".data)

/-- The `ai_cache` dictionary (app.py line 40), as an association list where
the most recent write is at the head. -/
abbrev AiCache := List (List Char × List Char)

/-- The cache lookup-or-generate step (app.py lines 133-135): returns the
explanation shown to the user, the updated cache, and how many times the
generator was invoked (0 or 1). -/
def explain_step (api : ChatRequest → List Char) (cache : AiCache)
    (text risk : List Char) (reasons : List (List Char)) :
    List Char × AiCache × Nat :=
  let key := cache_key (text.take 120)
  match cache.lookup key with
  | some v => (v, cache, 0)
  | none =>
    let v := ai_explanation api (text.take 120) risk reasons
    (v, (key, v) :: cache, 1)

/-- The uploaded file of a multipart form: `filename` and raw bytes. -/
structure ImageFile where
  filename : List Char
  content : List Nat
deriving DecidableEq

/-- A POST request: the optional `job_text` form field and the optional
`job_image` file field. -/
structure PostRequest where
  job_text : Option (List Char)
  job_image : Option ImageFile
deriving DecidableEq

/-- The `result` dictionary assembled on success (app.py lines 137-145). -/
structure AnalysisResult where
  risk : List Char
  trust : Nat
  meter : Nat
  cls : List Char
  reasons : List (List Char)
  tips : List (List Char × List Char)
  ai : List Char
deriving DecidableEq

/-- What the handler renders: the error page or the result page. -/
inductive Outcome where
  | errorPage (error : List Char)
  | resultPage (result : AnalysisResult)
deriving DecidableEq

/-- Text selection of the POST branch (app.py lines 94-108): the `job_text`
form field wins when it strips to something non-empty; otherwise, if a
`job_image` file with a non-empty filename is present, its bytes go through
the Text Extractor; otherwise the text stays empty. -/
def index_text (ocr : List Nat → OcrResponse) (req : PostRequest) :
    Except (List Char) (List Char) :=
  if pyStrip (req.job_text.getD []) ≠ [] then
    .ok (pyLower (pyStrip (req.job_text.getD [])))
  else
    match req.job_image with
    | some img =>
      if img.filename ≠ [] then extract_text_from_image ocr img.content
      else .ok []
    | none => .ok []

/-- The analysis part of the POST branch (app.py lines 109-145): the
empty-text error page, otherwise scoring, tier mapping, the explanation cache
step and the result assembly.  Returns the rendered outcome, the updated
cache, and the number of generator invocations. -/
def index_analyze (api : ChatRequest → List Char) (cache : AiCache)
    (text : List Char) : Outcome × AiCache × Nat :=
  if pyStrip text = [] then
    (.errorPage "No text detected from input.".data, cache, 0)
  else
    let sr := score_loop text
    let rl := risk_levels sr.1
    let es := explain_step api cache text rl.1 sr.2
    (.resultPage
       { risk := rl.1, trust := rl.2.2.1, meter := rl.2.1, cls := rl.2.2.2,
         reasons := sr.2, tips := risk_tips, ai := es.1 },
     es.2.1, es.2.2)

/-- The POST branch of `index` (app.py lines 93-145); an uncaught exception
from the OCR path is `Except.error`. -/
def index_post (api : ChatRequest → List Char) (ocr : List Nat → OcrResponse)
    (cache : AiCache) (req : PostRequest) :
    Except (List Char) (Outcome × AiCache × Nat) :=
  match index_text ocr req with
  | .error e => .error e
  | .ok text => .ok (index_analyze api cache text)

/-! ### Helper lemmas: characters, strip, lower -/

theorem toNat_charOfNat (n : Nat) (h : n < 55296) : (Char.ofNat n).toNat = n := by
  have hv : n.isValidChar := Or.inl h
  rw [Char.ofNat, dif_pos hv]
  simp [Char.ofNatAux, Char.toNat, UInt32.ofNat', UInt32.toNat,
    BitVec.toNat_ofNatLt]

theorem pyIsSpace_pyLowerChar (c : Char) : pyIsSpace (pyLowerChar c) = pyIsSpace c := by
  rw [pyLowerChar]
  split
  case isTrue h =>
    have hb : 65 ≤ c.toNat ∧ c.toNat ≤ 90 := by
      simpa [Bool.and_eq_true, decide_eq_true_eq] using h
    have ht : (Char.ofNat (c.toNat + 32)).toNat = c.toNat + 32 :=
      toNat_charOfNat _ (by omega)
    have e1 : pyIsSpace (Char.ofNat (c.toNat + 32)) = false := by
      simp [pyIsSpace, ht]; omega
    have e2 : pyIsSpace c = false := by
      simp [pyIsSpace]; omega
    rw [e1, e2]
  case isFalse h => rfl

theorem pyLowerChar_idem (c : Char) : pyLowerChar (pyLowerChar c) = pyLowerChar c := by
  by_cases h : (65 ≤ c.toNat && c.toNat ≤ 90) = true
  · have hb : 65 ≤ c.toNat ∧ c.toNat ≤ 90 := by
      simpa [Bool.and_eq_true, decide_eq_true_eq] using h
    have ht : (Char.ofNat (c.toNat + 32)).toNat = c.toNat + 32 :=
      toNat_charOfNat _ (by omega)
    have h1 : pyLowerChar c = Char.ofNat (c.toNat + 32) := by
      rw [pyLowerChar, if_pos h]
    rw [h1, pyLowerChar, if_neg (by simp [ht]; omega)]
  · have h1 : pyLowerChar c = c := by rw [pyLowerChar, if_neg h]
    rw [h1, h1]

theorem pyLower_idem (s : List Char) : pyLower (pyLower s) = pyLower s := by
  simp only [pyLower, List.map_map]
  exact List.map_congr_left (fun a _ => pyLowerChar_idem a)

theorem pyStrip_pyLower (s : List Char) : pyStrip (pyLower s) = pyLower (pyStrip s) := by
  have hcomp : pyIsSpace ∘ pyLowerChar = pyIsSpace := funext pyIsSpace_pyLowerChar
  unfold pyStrip pyLower
  rw [List.dropWhile_map, hcomp, ← List.map_reverse, List.dropWhile_map, hcomp,
    ← List.map_reverse]

theorem pyStrip_eq_rdrop (s : List Char) :
    pyStrip s = List.rdropWhile pyIsSpace (s.dropWhile pyIsSpace) := rfl

theorem pyStrip_idem (s : List Char) : pyStrip (pyStrip s) = pyStrip s := by
  rw [pyStrip_eq_rdrop, pyStrip_eq_rdrop]
  have h1 : List.dropWhile pyIsSpace
      (List.rdropWhile pyIsSpace (s.dropWhile pyIsSpace)) =
      List.rdropWhile pyIsSpace (s.dropWhile pyIsSpace) := by
    rw [List.dropWhile_eq_self_iff]
    intro hl
    have hpre := List.rdropWhile_prefix (p := pyIsSpace) (l := s.dropWhile pyIsSpace)
    have hlen : 0 < (s.dropWhile pyIsSpace).length :=
      Nat.lt_of_lt_of_le hl hpre.length_le
    have hget := hpre.getElem (n := 0) hl
    have hnot := List.dropWhile_get_zero_not pyIsSpace s hlen
    simpa [List.get_eq_getElem, hget] using hnot
  rw [h1, List.rdropWhile_idempotent]

theorem pyStrip_lower_strip (t : List Char) :
    pyStrip (pyLower (pyStrip t)) = pyLower (pyStrip t) := by
  rw [pyStrip_pyLower, pyStrip_idem]

theorem pyLower_lower_strip (t : List Char) :
    pyLower (pyLower (pyStrip t)) = pyLower (pyStrip t) := pyLower_idem _

/-! ### Helper lemmas: substring test and the scoring loop -/

theorem hasSub_iff (pat hay : List Char) : hasSub pat hay = true ↔ pat <:+: hay := by
  induction hay with
  | nil => simp [hasSub, List.isEmpty_iff, List.infix_nil]
  | cons c rest ih =>
    simp [hasSub, Bool.or_eq_true, List.isPrefixOf_iff_prefix, ih,
      List.infix_cons_iff]

theorem score_loop_foldl (text : List Char) (ps : List (List Char)) (n : Nat)
    (acc : List (List Char)) :
    ps.foldl (fun a phrase =>
        if hasSub phrase text then (a.1 + 1, a.2 ++ [phrase]) else a) (n, acc) =
      (n + (ps.filter (fun p => hasSub p text)).length,
       acc ++ ps.filter (fun p => hasSub p text)) := by
  induction ps generalizing n acc with
  | nil => simp
  | cons p ps ih =>
    by_cases hp : hasSub p text = true
    · rw [List.foldl_cons, if_pos hp, ih]
      simp only [List.filter_cons, hp, if_true, Prod.mk.injEq, List.length_cons,
        List.append_assoc, List.singleton_append]
      exact ⟨by omega, trivial⟩
    · rw [List.foldl_cons, if_neg hp, ih]
      simp only [List.filter_cons, hp, if_false, Bool.false_eq_true]

theorem score_loop_eq (text : List Char) :
    score_loop text =
      ((suspicious_phrases.filter (fun p => hasSub p text)).length,
       suspicious_phrases.filter (fun p => hasSub p text)) := by
  rw [score_loop, score_loop_foldl]
  simp

theorem suspicious_phrases_nodup : suspicious_phrases.Nodup := by decide

/-! ### Helper lemmas: shape of the hex digest -/

/-- A lowercase hexadecimal character. -/
def isHexChar (c : Char) : Bool :=
  "0123456789abcdef".data.contains c

theorem isHexChar_hexDigit (n : Nat) : isHexChar (hexDigit n) = true := by
  unfold hexDigit
  split <;> decide

theorem sha256Round_length (st : List Nat) (kw : Nat × Nat) :
    (sha256Round st kw).length = st.length := by
  unfold sha256Round
  split <;> simp

theorem foldl_sha256Round_length (l : List (Nat × Nat)) (st : List Nat) :
    (l.foldl sha256Round st).length = st.length := by
  induction l generalizing st with
  | nil => rfl
  | cons kw l ih => rw [List.foldl_cons, ih, sha256Round_length]

theorem sha256Block_length (st block : List Nat) :
    (sha256Block st block).length = st.length := by
  unfold sha256Block
  simp [List.length_zipWith, foldl_sha256Round_length]

theorem foldl_sha256Block_length (bs : List (List Nat)) (st : List Nat) :
    (bs.foldl sha256Block st).length = st.length := by
  induction bs generalizing st with
  | nil => rfl
  | cons b bs ih => rw [List.foldl_cons, ih, sha256Block_length]

theorem sha256Words_length (msg : List Nat) : (sha256Words msg).length = 8 := by
  unfold sha256Words
  rw [foldl_sha256Block_length]
  rfl

theorem toHex8_length (w : Nat) : (toHex8 w).length = 8 := by
  simp [toHex8]

theorem flatten_toHex8_length (ws : List Nat) :
    ((ws.map toHex8).flatten).length = 8 * ws.length := by
  induction ws with
  | nil => rfl
  | cons w ws ih =>
    simp only [List.map_cons, List.flatten_cons, List.length_append, ih,
      toHex8_length, List.length_cons]
    omega

theorem sha256Hex_length (msg : List Nat) : (sha256Hex msg).length = 64 := by
  rw [sha256Hex, flatten_toHex8_length, sha256Words_length]

theorem sha256Hex_hex (msg : List Nat) :
    ∀ c ∈ sha256Hex msg, isHexChar c = true := by
  intro c hc
  rw [sha256Hex, List.mem_flatten] at hc
  obtain ⟨l, hl, hcl⟩ := hc
  rw [List.mem_map] at hl
  obtain ⟨w, _, rfl⟩ := hl
  rw [toHex8, List.mem_map] at hcl
  obtain ⟨i, _, rfl⟩ := hcl
  exact isHexChar_hexDigit _

/-! ### Helper lemmas: unfolding the request handler -/

theorem index_post_text_eq (api : ChatRequest → List Char)
    (ocr : List Nat → OcrResponse) (cache : AiCache) (t : List Char)
    (imgOpt : Option ImageFile) (h : pyStrip t ≠ []) :
    index_post api ocr cache { job_text := some t, job_image := imgOpt } =
      .ok (.resultPage
            { risk := (risk_levels (score_loop (pyLower (pyStrip t))).1).1,
              trust := (risk_levels (score_loop (pyLower (pyStrip t))).1).2.2.1,
              meter := (risk_levels (score_loop (pyLower (pyStrip t))).1).2.1,
              cls := (risk_levels (score_loop (pyLower (pyStrip t))).1).2.2.2,
              reasons := (score_loop (pyLower (pyStrip t))).2,
              tips := risk_tips,
              ai := (explain_step api cache (pyLower (pyStrip t))
                      (risk_levels (score_loop (pyLower (pyStrip t))).1).1
                      (score_loop (pyLower (pyStrip t))).2).1 },
           (explain_step api cache (pyLower (pyStrip t))
             (risk_levels (score_loop (pyLower (pyStrip t))).1).1
             (score_loop (pyLower (pyStrip t))).2).2.1,
           (explain_step api cache (pyLower (pyStrip t))
             (risk_levels (score_loop (pyLower (pyStrip t))).1).1
             (score_loop (pyLower (pyStrip t))).2).2.2) := by
  have h2 : pyStrip (pyLower (pyStrip t)) ≠ [] := by
    rw [pyStrip_lower_strip]
    simpa [pyLower] using h
  simp only [index_post, index_text, index_analyze, Option.getD_some,
    if_pos h, if_neg h2]

theorem explain_step_hit (api : ChatRequest → List Char) (cache : AiCache)
    (text risk : List Char) (reasons : List (List Char)) (v : List Char)
    (h : cache.lookup (cache_key (text.take 120)) = some v) :
    explain_step api cache text risk reasons = (v, cache, 0) := by
  simp only [explain_step]
  rw [h]

theorem explain_step_miss (api : ChatRequest → List Char) (cache : AiCache)
    (text risk : List Char) (reasons : List (List Char))
    (h : cache.lookup (cache_key (text.take 120)) = none) :
    explain_step api cache text risk reasons =
      (ai_explanation api (text.take 120) risk reasons,
       (cache_key (text.take 120),
        ai_explanation api (text.take 120) risk reasons) :: cache, 1) := by
  simp only [explain_step]
  rw [h]

theorem pyStrip_getLast_not_space (s : List Char) (c : Char)
    (h : (pyStrip s).getLast? = some c) : pyIsSpace c = false := by
  rw [pyStrip, List.getLast?_eq_head?_reverse, List.reverse_reverse] at h
  have hd := List.head?_dropWhile_not pyIsSpace ((s.dropWhile pyIsSpace).reverse)
  rw [h] at hd
  exact hd

theorem pyStrip_head_not_space (s : List Char) (c : Char)
    (h : (pyStrip s).head? = some c) : pyIsSpace c = false := by
  rw [pyStrip, ← List.getLast?_eq_head?_reverse] at h
  have hBne : (List.dropWhile pyIsSpace (s.dropWhile pyIsSpace).reverse) ≠ [] := by
    intro e
    rw [e] at h
    simp at h
  have hsuff := List.dropWhile_suffix (l := (s.dropWhile pyIsSpace).reverse) pyIsSpace
  have hget := hsuff.getLast hBne
  rw [List.getLast?_eq_getLast _ hBne, hget] at h
  have h2 : ((s.dropWhile pyIsSpace).reverse).getLast? = some c := by
    rw [List.getLast?_eq_getLast _ (hsuff.ne_nil hBne)]
    exact h
  rw [List.getLast?_eq_head?_reverse, List.reverse_reverse] at h2
  have hd := List.head?_dropWhile_not pyIsSpace s
  rw [h2] at hd
  exact hd

/-- Any successful handler run produced its result fields from `score_loop`,
`risk_levels` and the static `risk_tips`, for some extracted text. -/
theorem index_post_success (api : ChatRequest → List Char)
    (ocr : List Nat → OcrResponse) (cache : AiCache) (req : PostRequest)
    (r : AnalysisResult) (c2 : AiCache) (n : Nat)
    (h : index_post api ocr cache req = .ok (.resultPage r, c2, n)) :
    ∃ text : List Char,
      r.risk = (risk_levels (score_loop text).1).1 ∧
      r.meter = (risk_levels (score_loop text).1).2.1 ∧
      r.trust = (risk_levels (score_loop text).1).2.2.1 ∧
      r.cls = (risk_levels (score_loop text).1).2.2.2 ∧
      r.reasons = (score_loop text).2 ∧
      r.tips = risk_tips := by
  unfold index_post at h
  cases hE : index_text ocr req with
  | error e =>
    rw [hE] at h
    simp at h
  | ok text =>
    rw [hE] at h
    simp only [Except.ok.injEq] at h
    refine ⟨text, ?_⟩
    unfold index_analyze at h
    split at h
    · simp at h
    · simp only [Prod.mk.injEq, Outcome.resultPage.injEq] at h
      obtain ⟨hout, -, -⟩ := h
      subst hout
      exact ⟨rfl, rfl, rfl, rfl, rfl, rfl⟩

/-! ### The claims -/

/-- C2: for every normalized input text, the risk scorer tests each phrase of
the fixed suspicious-phrase list exactly once for substring containment; each
matching phrase increments the score and is appended to the matched-reasons
sequence, so the final score equals the length of the reasons sequence, the
reasons appear in phrase-list order (a sublist of the phrase list), and the
sequence has no duplicates; membership in the reasons is exactly substring
containment of a listed phrase. -/
theorem spec_c2 (text : List Char) :
    (score_loop text).1 = (score_loop text).2.length ∧
    (score_loop text).2 = suspicious_phrases.filter (fun p => hasSub p text) ∧
    (score_loop text).2.Sublist suspicious_phrases ∧
    (score_loop text).2.Nodup ∧
    ∀ p, p ∈ (score_loop text).2 ↔ p ∈ suspicious_phrases ∧ p <:+: text := by
  have he := score_loop_eq text
  refine ⟨by rw [he], by rw [he], ?_, ?_, ?_⟩
  · rw [he]
    exact List.filter_sublist _
  · rw [he]
    show (suspicious_phrases.filter (fun p => hasSub p text)).Nodup
    exact suspicious_phrases_nodup.filter _
  · intro p
    rw [he]
    simp [List.mem_filter, hasSub_iff]

/-- C1: for every request whose handling produces an analysis result, the
risk tier, trust, meter, and class are the fixed function of the
trigger-phrase match count: 0 matches gives LOW RISK/meter 20/trust 85/class
low; 1 or 2 matches gives MEDIUM RISK/60/55/medium; 3 or more gives HIGH
RISK/90/20/high. -/
theorem spec_c1 (api : ChatRequest → List Char) (ocr : List Nat → OcrResponse)
    (cache : AiCache) (req : PostRequest) (r : AnalysisResult) (c2 : AiCache)
    (n : Nat)
    (h : index_post api ocr cache req = .ok (.resultPage r, c2, n)) :
    (r.reasons.length = 0 →
      r.risk = "LOW RISK".data ∧ r.meter = 20 ∧ r.trust = 85 ∧
      r.cls = "low".data) ∧
    ((r.reasons.length = 1 ∨ r.reasons.length = 2) →
      r.risk = "MEDIUM RISK".data ∧ r.meter = 60 ∧ r.trust = 55 ∧
      r.cls = "medium".data) ∧
    (3 ≤ r.reasons.length →
      r.risk = "HIGH RISK".data ∧ r.meter = 90 ∧ r.trust = 20 ∧
      r.cls = "high".data) := by
  obtain ⟨text, hrisk, hmeter, htrust, hcls, hreasons, -⟩ :=
    index_post_success api ocr cache req r c2 n h
  have hs : (score_loop text).1 = r.reasons.length := by
    rw [hreasons, score_loop_eq]
  rw [hrisk, hmeter, htrust, hcls, hs]
  refine ⟨?_, ?_, ?_⟩
  · intro hk
    rw [hk]
    exact ⟨rfl, rfl, rfl, rfl⟩
  · intro hk
    rcases hk with hk | hk <;> rw [hk] <;> exact ⟨rfl, rfl, rfl, rfl⟩
  · intro hk
    rw [risk_levels, if_neg (by omega), if_neg (by omega)]
    exact ⟨rfl, rfl, rfl, rfl⟩

/-- The sample input of the specification. -/
def sampleText : List Char :=
  String.data "Pay registration fee now, apply immediately, limited seats, no interview guaranteed"

/-- C7: on the text "Pay registration fee now, apply immediately, limited
seats, no interview guaranteed" the matched reasons include "registration
fee", "apply immediately", "limited seats" and "no interview", at least 4
phrases match, and the result is HIGH RISK with meter 90 and trust 20. -/
theorem spec_c7 (api : ChatRequest → List Char) (ocr : List Nat → OcrResponse)
    (cache : AiCache) :
    ∃ r c2 n,
      index_post api ocr cache
          { job_text := some sampleText, job_image := none } =
        .ok (.resultPage r, c2, n) ∧
      "registration fee".data ∈ r.reasons ∧
      "apply immediately".data ∈ r.reasons ∧
      "limited seats".data ∈ r.reasons ∧
      "no interview".data ∈ r.reasons ∧
      4 ≤ r.reasons.length ∧
      r.risk = "HIGH RISK".data ∧ r.meter = 90 ∧ r.trust = 20 := by
  refine ⟨_, _, _,
    index_post_text_eq api ocr cache sampleText none (by decide),
    ?_, ?_, ?_, ?_, ?_, ?_, ?_, ?_⟩ <;> (dsimp only; decide)

/-- C8: every successful POST produces a result whose fields are exactly
risk, trust, meter, class, reasons, tips and ai, and whose tips field is
always the full static `risk_tips` mapping — identical across all successful
requests, never filtered to the matched reasons. -/
theorem spec_c8 (api : ChatRequest → List Char) (ocr : List Nat → OcrResponse)
    (cache : AiCache) (req : PostRequest) (r : AnalysisResult) (c2 : AiCache)
    (n : Nat)
    (h : index_post api ocr cache req = .ok (.resultPage r, c2, n)) :
    r.tips = risk_tips ∧
    r = { risk := r.risk, trust := r.trust, meter := r.meter, cls := r.cls,
          reasons := r.reasons, tips := r.tips, ai := r.ai } ∧
    ∀ (api2 : ChatRequest → List Char) (ocr2 : List Nat → OcrResponse)
      (cache2 : AiCache) (req2 : PostRequest) (r2 : AnalysisResult)
      (c22 : AiCache) (n2 : Nat),
      index_post api2 ocr2 cache2 req2 = .ok (.resultPage r2, c22, n2) →
      r2.tips = r.tips := by
  obtain ⟨-, -, -, -, -, -, htips⟩ :=
    index_post_success api ocr cache req r c2 n h
  refine ⟨htips, rfl, ?_⟩
  intro api2 ocr2 cache2 req2 r2 c22 n2 h2
  obtain ⟨-, -, -, -, -, -, htips2⟩ :=
    index_post_success api2 ocr2 cache2 req2 r2 c22 n2 h2
  rw [htips2, htips]

/-- C6: a POST whose resulting text is empty after trimming — whether the
text field is empty (or whitespace) with no image file, or an uploaded image
whose OCR yields the empty string — returns the error message "No text
detected from input." with no result, an unchanged cache, and no generator
call. -/
theorem spec_c6 (api : ChatRequest → List Char) (ocr : List Nat → OcrResponse)
    (cache : AiCache) (jt : Option (List Char)) (img : ImageFile) :
    (pyStrip (jt.getD []) = [] →
      index_post api ocr cache { job_text := jt, job_image := none } =
        .ok (.errorPage "No text detected from input.".data, cache, 0)) ∧
    (pyStrip (jt.getD []) = [] → img.filename ≠ [] →
      parse_ocr (ocr img.content) = .ok [] →
      index_post api ocr cache { job_text := jt, job_image := some img } =
        .ok (.errorPage "No text detected from input.".data, cache, 0)) := by
  constructor
  · intro h
    have h1 : ¬ (pyStrip (jt.getD []) ≠ []) := by simpa using h
    unfold index_post index_text
    rw [if_neg h1]
    rfl
  · intro h hf hocr
    have h1 : ¬ (pyStrip (jt.getD []) ≠ []) := by simpa using h
    unfold index_post index_text extract_text_from_image
    rw [if_neg h1]
    show (match (if img.filename ≠ [] then parse_ocr (ocr img.content)
        else Except.ok []) with
      | Except.error e => Except.error e
      | Except.ok text => Except.ok (index_analyze api cache text)) = _
    rw [if_pos hf, hocr]
    rfl

/-- C10: the text field takes precedence only when non-empty after trimming
(a whitespace-only field behaves exactly like an absent one); when the text
field wins, neither the OCR oracle nor the image field can influence the
outcome; and an image part with an empty filename is ignored, the request
falling through to the "no text detected" error independently of the OCR
oracle. -/
theorem spec_c10 (api : ChatRequest → List Char) (ocr : List Nat → OcrResponse)
    (cache : AiCache) (t : List Char) (imgOpt : Option ImageFile)
    (img : ImageFile) :
    (pyStrip t = [] →
      index_post api ocr cache { job_text := some t, job_image := imgOpt } =
        index_post api ocr cache { job_text := none, job_image := imgOpt }) ∧
    (pyStrip t ≠ [] →
      ∀ (ocr2 : List Nat → OcrResponse) (imgOpt2 : Option ImageFile),
      index_post api ocr cache { job_text := some t, job_image := imgOpt } =
        index_post api ocr2 cache { job_text := some t, job_image := imgOpt2 }) ∧
    (img.filename = [] → ∀ (ocr2 : List Nat → OcrResponse),
      index_post api ocr cache { job_text := none, job_image := some img } =
        .ok (.errorPage "No text detected from input.".data, cache, 0) ∧
      index_post api ocr cache { job_text := none, job_image := some img } =
        index_post api ocr2 cache { job_text := none, job_image := some img }) := by
  refine ⟨?_, ?_, ?_⟩
  · intro h
    have h1 : ¬ (pyStrip t ≠ []) := by simpa using h
    unfold index_post index_text
    simp only [Option.getD_some, Option.getD_none]
    rw [if_neg h1, if_neg (show ¬ (pyStrip ([] : List Char) ≠ []) by decide)]
  · intro h ocr2 imgOpt2
    rw [index_post_text_eq api ocr cache t imgOpt h,
      index_post_text_eq api ocr2 cache t imgOpt2 h]
  · intro hf ocr2
    have h2 : ¬ (img.filename ≠ []) := by simpa using hf
    constructor
    · unfold index_post index_text
      simp only [Option.getD_none]
      rw [if_neg (show ¬ (pyStrip ([] : List Char) ≠ []) by decide), if_neg h2]
      rfl
    · unfold index_post index_text
      simp only [Option.getD_none]
      rw [if_neg (show ¬ (pyStrip ([] : List Char) ≠ []) by decide),
        if_neg (show ¬ (pyStrip ([] : List Char) ≠ []) by decide), if_neg h2,
        if_neg h2]

/-- C5 counterexample: when the OCR response has a non-empty parsed-results
list whose first element lacks the parsed-text field, the extractor does not
return the empty string (it fails with a KeyError), contradicting the claim
that an absent parsed-text field yields the empty string. -/
theorem spec_c5_counterexample :
    parse_ocr { ParsedResults := some [{ ParsedText := none }] } ≠
      Except.ok [] := by
  decide

/-- C5 (amended): the extractor returns the first parsed-result text
lowercased, and returns the empty string when the parsed-results field is
absent or its list is empty; but when the parsed-text field is absent from
the first result it raises (an error propagates) instead of returning the
empty string. -/
theorem spec_c5 (data : OcrResponse) :
    (data.ParsedResults = none → parse_ocr data = .ok []) ∧
    (data.ParsedResults = some [] → parse_ocr data = .ok []) ∧
    (∀ r rest, data.ParsedResults = some (r :: rest) →
      (∀ t, r.ParsedText = some t → parse_ocr data = .ok (pyLower t)) ∧
      (r.ParsedText = none →
        parse_ocr data = .error "KeyError: ParsedText".data)) := by
  refine ⟨?_, ?_, ?_⟩
  · intro h
    simp [parse_ocr, h]
  · intro h
    simp [parse_ocr, h]
  · intro r rest h
    constructor
    · intro t ht
      simp [parse_ocr, h, ht]
    · intro ht
      simp [parse_ocr, h, ht]

/-- C9: the explanation generator sends a request with the fixed model
identifier "gpt-4o-mini" and a maximum-output-token bound of 120, whose
single user message embeds the risk label and the comma-joined matched
reasons (or the literal "None" when there are none); the returned completion
has every "###" occurrence removed and surrounding whitespace stripped, so
the final text has no leading or trailing whitespace. -/
theorem spec_c9 (api : ChatRequest → List Char) (text risk : List Char)
    (reasons : List (List Char)) :
    (ai_request risk reasons).model = "gpt-4o-mini".data ∧
    (ai_request risk reasons).max_tokens = 120 ∧
    (ai_request risk reasons).messages = [("user".data, ai_prompt risk reasons)] ∧
    risk <:+: ai_prompt risk reasons ∧
    (reasons = [] → "None".data <:+: ai_prompt risk reasons) ∧
    (reasons ≠ [] →
      List.intercalate ", ".data reasons <:+: ai_prompt risk reasons) ∧
    ai_explanation api text risk reasons =
      pyStrip (removeOcc "###".data (api (ai_request risk reasons))) ∧
    (∀ c, (ai_explanation api text risk reasons).head? = some c →
      pyIsSpace c = false) ∧
    (∀ c, (ai_explanation api text risk reasons).getLast? = some c →
      pyIsSpace c = false) := by
  refine ⟨rfl, rfl, rfl, ?_, ?_, ?_, rfl, ?_, ?_⟩
  · refine ⟨"\nRisk Level: ".data, "\nSuspicious indicators: ".data ++
      (if reasons.isEmpty then "None".data
        else List.intercalate ", ".data reasons) ++
      "\n\nExplain simply:\n• Why this job is risky\n• What students should check\n• One safety tip\n".data, ?_⟩
    simp [ai_prompt, List.append_assoc]
  · intro h
    subst h
    refine ⟨"\nRisk Level: ".data ++ risk ++ "\nSuspicious indicators: ".data,
      "\n\nExplain simply:\n• Why this job is risky\n• What students should check\n• One safety tip\n".data, ?_⟩
    simp [ai_prompt, List.append_assoc]
  · intro h
    refine ⟨"\nRisk Level: ".data ++ risk ++ "\nSuspicious indicators: ".data,
      "\n\nExplain simply:\n• Why this job is risky\n• What students should check\n• One safety tip\n".data, ?_⟩
    have he : reasons.isEmpty = false := by
      simpa [List.isEmpty_iff] using h
    simp [ai_prompt, he, List.append_assoc]
  · intro c hc
    exact pyStrip_head_not_space _ c hc
  · intro c hc
    exact pyStrip_getLast_not_space _ c hc

/-- C3: two sequential POSTs whose texts produce the same
normalized-and-truncated 120-character prefix get the identical stored
explanation, and across the two requests the generator is invoked at most
once (the second request never invokes it). -/
theorem spec_c3 (api : ChatRequest → List Char) (ocr : List Nat → OcrResponse)
    (cache : AiCache) (t1 t2 : List Char) (r1 r2 : AnalysisResult)
    (ca cb : AiCache) (n1 n2 : Nat)
    (h1 : pyStrip t1 ≠ []) (h2 : pyStrip t2 ≠ [])
    (hpre : (pyLower (pyStrip t1)).take 120 = (pyLower (pyStrip t2)).take 120)
    (e1 : index_post api ocr cache { job_text := some t1, job_image := none } =
      .ok (.resultPage r1, ca, n1))
    (e2 : index_post api ocr ca { job_text := some t2, job_image := none } =
      .ok (.resultPage r2, cb, n2)) :
    r2.ai = r1.ai ∧
    ca.lookup (cache_key ((pyLower (pyStrip t1)).take 120)) = some r1.ai ∧
    n2 = 0 ∧ n1 + n2 ≤ 1 := by
  rw [index_post_text_eq api ocr cache t1 none h1] at e1
  rw [index_post_text_eq api ocr ca t2 none h2] at e2
  simp only [Except.ok.injEq, Prod.mk.injEq, Outcome.resultPage.injEq] at e1 e2
  obtain ⟨ho1, hca, hn1⟩ := e1
  obtain ⟨ho2, hcb, hn2⟩ := e2
  subst ho1 hca hn1 ho2 hcb hn2
  have hkey : cache_key ((pyLower (pyStrip t2)).take 120) =
      cache_key ((pyLower (pyStrip t1)).take 120) := by rw [hpre]
  rcases hl : cache.lookup (cache_key ((pyLower (pyStrip t1)).take 120))
    with _ | v
  · rw [explain_step_miss api cache (pyLower (pyStrip t1)) _ _ hl]
    have hl2 : ((cache_key ((pyLower (pyStrip t1)).take 120),
        ai_explanation api ((pyLower (pyStrip t1)).take 120)
          (risk_levels (score_loop (pyLower (pyStrip t1))).1).1
          (score_loop (pyLower (pyStrip t1))).2) :: cache).lookup
        (cache_key ((pyLower (pyStrip t2)).take 120)) =
        some (ai_explanation api ((pyLower (pyStrip t1)).take 120)
          (risk_levels (score_loop (pyLower (pyStrip t1))).1).1
          (score_loop (pyLower (pyStrip t1))).2) := by
      rw [hkey]
      exact List.lookup_cons_self
    rw [explain_step_hit api _ (pyLower (pyStrip t2)) _ _ _ hl2]
    exact ⟨rfl, List.lookup_cons_self, rfl, by simp⟩
  · rw [explain_step_hit api cache (pyLower (pyStrip t1)) _ _ v hl]
    have hl2 : cache.lookup (cache_key ((pyLower (pyStrip t2)).take 120)) =
        some v := by
      rw [hkey]
      exact hl
    rw [explain_step_hit api cache (pyLower (pyStrip t2)) _ _ v hl2]
    exact ⟨rfl, hl, rfl, by simp⟩

/-- C4: the cache key is the 64-character lowercase-hexadecimal SHA-256
digest of the trimmed-lowercased text, computed over the first 120 characters
of the already-normalized text (truncation happens before hashing), and the
handler looks up and stores the explanation under exactly that key. -/
theorem spec_c4 (t0 : List Char) (h : pyStrip t0 ≠ []) :
    cache_key ((pyLower (pyStrip t0)).take 120) =
      sha256Hex (utf8Encode (pyStrip ((pyLower (pyStrip t0)).take 120))) ∧
    (cache_key ((pyLower (pyStrip t0)).take 120)).length = 64 ∧
    (∀ c ∈ cache_key ((pyLower (pyStrip t0)).take 120), isHexChar c = true) ∧
    ∀ (api : ChatRequest → List Char) (ocr : List Nat → OcrResponse)
      (cache : AiCache),
      ∃ r c2 n,
        index_post api ocr cache { job_text := some t0, job_image := none } =
          .ok (.resultPage r, c2, n) ∧
        ((cache.lookup (cache_key ((pyLower (pyStrip t0)).take 120)) =
            some r.ai ∧ c2 = cache ∧ n = 0) ∨
         (cache.lookup (cache_key ((pyLower (pyStrip t0)).take 120)) = none ∧
            c2 = (cache_key ((pyLower (pyStrip t0)).take 120), r.ai) :: cache ∧
            n = 1)) := by
  have hX : (pyLower (pyStrip t0)).take 120 = pyLower ((pyStrip t0).take 120) := by
    simp [pyLower, List.map_take]
  have hlow : pyLower (pyStrip ((pyLower (pyStrip t0)).take 120)) =
      pyStrip ((pyLower (pyStrip t0)).take 120) := by
    rw [hX, pyStrip_pyLower, pyLower_idem]
  refine ⟨?_, sha256Hex_length _, fun c hc => sha256Hex_hex _ c hc, ?_⟩
  · rw [cache_key, hlow]
  · intro api ocr cache
    refine ⟨_, _, _, index_post_text_eq api ocr cache t0 none h, ?_⟩
    rcases hl : cache.lookup (cache_key ((pyLower (pyStrip t0)).take 120))
      with _ | v
    · right
      rw [explain_step_miss api cache (pyLower (pyStrip t0)) _ _ hl]
      exact ⟨rfl, rfl, rfl⟩
    · left
      rw [explain_step_hit api cache (pyLower (pyStrip t0)) _ _ v hl]
      exact ⟨rfl, rfl, rfl⟩

/-! ### Concrete runs used by the witnesses -/

/-- An oracle for the language-model API returning the empty completion. -/
def apiNull : ChatRequest → List Char := fun _ => []

/-- An OCR oracle whose response lacks the parsed-results field. -/
def ocrNull : List Nat → OcrResponse := fun _ => { ParsedResults := none }

/-- A POST request carrying the text "hello". -/
def helloReq : PostRequest := { job_text := some "hello".data, job_image := none }

/-- The SHA-256 hex digest of "hello". -/
def helloKey : List Char :=
  "2cf24dba5fb0a30e26e83b2ac5b9e29e1b161e5c1fa7425e73043362938b9824".data

/-- The analysis result the handler assembles for "hello" under `apiNull`. -/
def lowResult : AnalysisResult :=
  { risk := "LOW RISK".data, trust := 85, meter := 20, cls := "low".data,
    reasons := [], tips := risk_tips, ai := [] }

theorem spec_c1_witness :
    lowResult.reasons.length = 0 ∧
    (lowResult.risk = "LOW RISK".data ∧ lowResult.meter = 20 ∧
     lowResult.trust = 85 ∧ lowResult.cls = "low".data) :=
  ⟨rfl, (spec_c1 apiNull ocrNull [] helloReq lowResult [(helloKey, [])] 1
    (by decide)).1 rfl⟩

theorem spec_c3_witness :
    lowResult.ai = lowResult.ai ∧
    List.lookup (cache_key ((pyLower (pyStrip "hello".data)).take 120))
      [(helloKey, [])] = some lowResult.ai ∧
    (0 : Nat) = 0 ∧ 1 + 0 ≤ 1 :=
  spec_c3 apiNull ocrNull [] "hello".data "hello".data lowResult lowResult
    [(helloKey, [])] [(helloKey, [])] 1 0 (by decide) (by decide) rfl
    (by decide) (by decide)

theorem spec_c4_witness :
    cache_key ((pyLower (pyStrip "hello".data)).take 120) =
      sha256Hex (utf8Encode (pyStrip ((pyLower (pyStrip "hello".data)).take 120))) ∧
    (cache_key ((pyLower (pyStrip "hello".data)).take 120)).length = 64 :=
  ⟨(spec_c4 "hello".data (by decide)).1, (spec_c4 "hello".data (by decide)).2.1⟩

theorem spec_c5_witness :
    parse_ocr { ParsedResults := some [{ ParsedText := some "AB".data }] } =
      .ok (pyLower "AB".data) ∧
    parse_ocr { ParsedResults := none } = .ok [] ∧
    parse_ocr { ParsedResults := some [{ ParsedText := none }] } =
      .error "KeyError: ParsedText".data :=
  ⟨((spec_c5 { ParsedResults := some [{ ParsedText := some "AB".data }] }).2.2
      { ParsedText := some "AB".data } [] rfl).1 "AB".data rfl,
   (spec_c5 { ParsedResults := none }).1 rfl,
   ((spec_c5 { ParsedResults := some [{ ParsedText := none }] }).2.2
      { ParsedText := none } [] rfl).2 rfl⟩

theorem spec_c6_witness :
    index_post apiNull ocrNull []
        { job_text := some "   ".data, job_image := none } =
      .ok (.errorPage "No text detected from input.".data, [], 0) ∧
    index_post apiNull (fun _ => { ParsedResults := some [] }) []
        { job_text := none,
          job_image := some { filename := "a".data, content := [] } } =
      .ok (.errorPage "No text detected from input.".data, [], 0) :=
  ⟨(spec_c6 apiNull ocrNull [] (some "   ".data)
      { filename := "a".data, content := [] }).1 (by decide),
   (spec_c6 apiNull (fun _ => { ParsedResults := some [] }) [] none
      { filename := "a".data, content := [] }).2 (by decide) (by decide)
     (by decide)⟩

theorem spec_c8_witness : lowResult.tips = risk_tips :=
  (spec_c8 apiNull ocrNull [] helloReq lowResult [(helloKey, [])] 1
    (by decide)).1

theorem spec_c9_witness :
    "None".data <:+: ai_prompt "LOW RISK".data [] ∧
    (List.intercalate ", ".data ["pay".data] <:+:
      ai_prompt "HIGH RISK".data ["pay".data]) ∧
    pyIsSpace 'o' = false ∧ pyIsSpace 'k' = false :=
  ⟨(spec_c9 apiNull [] "LOW RISK".data []).2.2.2.2.1 rfl,
   (spec_c9 apiNull [] "HIGH RISK".data ["pay".data]).2.2.2.2.2.1 (by decide),
   (spec_c9 (fun _ => "  ok  ".data) [] "LOW RISK".data
     []).2.2.2.2.2.2.2.1 'o' (by decide),
   (spec_c9 (fun _ => "  ok  ".data) [] "LOW RISK".data
     []).2.2.2.2.2.2.2.2 'k' (by decide)⟩

theorem spec_c10_witness :
    (index_post apiNull ocrNull []
        { job_text := some "   ".data, job_image := none } =
      index_post apiNull ocrNull [] { job_text := none, job_image := none }) ∧
    (index_post apiNull ocrNull []
        { job_text := some "hello".data, job_image := none } =
      index_post apiNull (fun _ => { ParsedResults := some [] }) []
        { job_text := some "hello".data,
          job_image := some { filename := "a".data, content := [] } }) ∧
    (index_post apiNull ocrNull []
        { job_text := none, job_image := some { filename := [], content := [] } } =
      .ok (.errorPage "No text detected from input.".data, [], 0)) :=
  ⟨(spec_c10 apiNull ocrNull [] "   ".data none
      { filename := "a".data, content := [] }).1 (by decide),
   (spec_c10 apiNull ocrNull [] "hello".data none
      { filename := "a".data, content := [] }).2.1 (by decide)
     (fun _ => { ParsedResults := some [] })
     (some { filename := "a".data, content := [] }),
   ((spec_c10 apiNull ocrNull [] "   ".data none
      { filename := [], content := [] }).2.2 rfl ocrNull).1⟩
